import Mathlib

/-!
Verification of the LSP-multiplexer routing/aggregation core
(`src/rassumfrassum/frassum.py`, `src/rassumfrassum/util.py`).

JSON values are embedded as an inductive type; Python dicts become
insertion-ordered association lists (updates keep the key's position,
new keys are appended, matching CPython dict semantics).  Back-end
servers carry an explicit `sid` standing for CPython's `id()`, which
the source uses to key `self.servers`, `inflight_pushes`,
`inflight_pulls` and the stash.
-/

namespace Rass

/-- Free-form JSON value, as manipulated by the multiplexer core. -/
inductive JSON where
  | null : JSON
  | bool : Bool → JSON
  | num : Int → JSON
  | str : String → JSON
  | arr : List JSON → JSON
  | obj : List (String × JSON) → JSON
deriving Repr

mutual

/-- Decidable equality for JSON values. -/
def jsonDecEq : (a b : JSON) → Decidable (a = b)
  | JSON.null, JSON.null => isTrue rfl
  | JSON.bool x, JSON.bool y =>
    match decEq x y with
    | isTrue h => isTrue (by rw [h])
    | isFalse h => isFalse (by intro hc; cases hc; exact h rfl)
  | JSON.num x, JSON.num y =>
    match decEq x y with
    | isTrue h => isTrue (by rw [h])
    | isFalse h => isFalse (by intro hc; cases hc; exact h rfl)
  | JSON.str x, JSON.str y =>
    match decEq x y with
    | isTrue h => isTrue (by rw [h])
    | isFalse h => isFalse (by intro hc; cases hc; exact h rfl)
  | JSON.arr xs, JSON.arr ys =>
    match jsonListDecEq xs ys with
    | isTrue h => isTrue (by rw [h])
    | isFalse h => isFalse (by intro hc; cases hc; exact h rfl)
  | JSON.obj xs, JSON.obj ys =>
    match jsonObjDecEq xs ys with
    | isTrue h => isTrue (by rw [h])
    | isFalse h => isFalse (by intro hc; cases hc; exact h rfl)
  | JSON.null, JSON.bool _ => isFalse (fun h => JSON.noConfusion h)
  | JSON.null, JSON.num _ => isFalse (fun h => JSON.noConfusion h)
  | JSON.null, JSON.str _ => isFalse (fun h => JSON.noConfusion h)
  | JSON.null, JSON.arr _ => isFalse (fun h => JSON.noConfusion h)
  | JSON.null, JSON.obj _ => isFalse (fun h => JSON.noConfusion h)
  | JSON.bool _, JSON.null => isFalse (fun h => JSON.noConfusion h)
  | JSON.bool _, JSON.num _ => isFalse (fun h => JSON.noConfusion h)
  | JSON.bool _, JSON.str _ => isFalse (fun h => JSON.noConfusion h)
  | JSON.bool _, JSON.arr _ => isFalse (fun h => JSON.noConfusion h)
  | JSON.bool _, JSON.obj _ => isFalse (fun h => JSON.noConfusion h)
  | JSON.num _, JSON.null => isFalse (fun h => JSON.noConfusion h)
  | JSON.num _, JSON.bool _ => isFalse (fun h => JSON.noConfusion h)
  | JSON.num _, JSON.str _ => isFalse (fun h => JSON.noConfusion h)
  | JSON.num _, JSON.arr _ => isFalse (fun h => JSON.noConfusion h)
  | JSON.num _, JSON.obj _ => isFalse (fun h => JSON.noConfusion h)
  | JSON.str _, JSON.null => isFalse (fun h => JSON.noConfusion h)
  | JSON.str _, JSON.bool _ => isFalse (fun h => JSON.noConfusion h)
  | JSON.str _, JSON.num _ => isFalse (fun h => JSON.noConfusion h)
  | JSON.str _, JSON.arr _ => isFalse (fun h => JSON.noConfusion h)
  | JSON.str _, JSON.obj _ => isFalse (fun h => JSON.noConfusion h)
  | JSON.arr _, JSON.null => isFalse (fun h => JSON.noConfusion h)
  | JSON.arr _, JSON.bool _ => isFalse (fun h => JSON.noConfusion h)
  | JSON.arr _, JSON.num _ => isFalse (fun h => JSON.noConfusion h)
  | JSON.arr _, JSON.str _ => isFalse (fun h => JSON.noConfusion h)
  | JSON.arr _, JSON.obj _ => isFalse (fun h => JSON.noConfusion h)
  | JSON.obj _, JSON.null => isFalse (fun h => JSON.noConfusion h)
  | JSON.obj _, JSON.bool _ => isFalse (fun h => JSON.noConfusion h)
  | JSON.obj _, JSON.num _ => isFalse (fun h => JSON.noConfusion h)
  | JSON.obj _, JSON.str _ => isFalse (fun h => JSON.noConfusion h)
  | JSON.obj _, JSON.arr _ => isFalse (fun h => JSON.noConfusion h)

/-- Decidable equality for JSON lists. -/
def jsonListDecEq : (xs ys : List JSON) → Decidable (xs = ys)
  | [], [] => isTrue rfl
  | [], _ :: _ => isFalse (fun h => List.noConfusion h)
  | _ :: _, [] => isFalse (fun h => List.noConfusion h)
  | x :: xs, y :: ys =>
    match jsonDecEq x y, jsonListDecEq xs ys with
    | isTrue h1, isTrue h2 => isTrue (by rw [h1, h2])
    | isFalse h1, _ => isFalse (by intro hc; injection hc with e1 e2; exact h1 e1)
    | _, isFalse h2 => isFalse (by intro hc; injection hc with e1 e2; exact h2 e2)

/-- Decidable equality for JSON object entry lists. -/
def jsonObjDecEq : (xs ys : List (String × JSON)) → Decidable (xs = ys)
  | [], [] => isTrue rfl
  | [], _ :: _ => isFalse (fun h => List.noConfusion h)
  | _ :: _, [] => isFalse (fun h => List.noConfusion h)
  | (k1, v1) :: xs, (k2, v2) :: ys =>
    match decEq k1 k2, jsonDecEq v1 v2, jsonObjDecEq xs ys with
    | isTrue hk, isTrue h1, isTrue h2 => isTrue (by rw [hk, h1, h2])
    | isFalse hk, _, _ => isFalse (by
        intro hc; injection hc with e1 e2
        exact hk (congrArg Prod.fst e1))
    | _, isFalse h1, _ => isFalse (by
        intro hc; injection hc with e1 e2
        exact h1 (congrArg Prod.snd e1))
    | _, _, isFalse h2 => isFalse (by
        intro hc; injection hc with e1 e2; exact h2 e2)

end

instance : DecidableEq JSON := jsonDecEq

/-- A Python dict with string keys (insertion-ordered association list). -/
abbrev PyDict := List (String × JSON)

/-- Association-list lookup (Python `d[k]` / `d.get(k)` hit). -/
def lookupA {κ α : Type} [DecidableEq κ] : List (κ × α) → κ → Option α
  | [], _ => none
  | (k', v) :: rest, k => if k' = k then some v else lookupA rest k

/-- Association-list store, Python `d[k] = v`: update in place if the key
exists (keeping its position), else append. -/
def setkA {κ α : Type} [DecidableEq κ] : List (κ × α) → κ → α → List (κ × α)
  | [], k, v => [(k, v)]
  | (k', v') :: rest, k, v =>
      if k' = k then (k', v) :: rest else (k', v') :: setkA rest k v

/-- Python `d[k] = v` on a string-keyed dict. -/
def setk (d : PyDict) (k : String) (v : JSON) : PyDict := setkA d k v

/-- Python `d.get(k)`: `None` (JSON null) when the key is absent. -/
def pyget (d : PyDict) (k : String) : JSON := (lookupA d k).getD JSON.null

/-- Python `d.get(k, [])` where a list is expected. -/
def pygetList (d : PyDict) (k : String) : List JSON :=
  match lookupA d k with
  | some (JSON.arr l) => l
  | _ => []

/-- View a JSON value as a dict, Python `d.get(k, {})` style defaults.
A non-dict value where the source would crash is treated as empty. -/
def asObj : JSON → PyDict
  | JSON.obj o => o
  | _ => []

/-- Python `diags or []`: a list if the value is a list, else empty. -/
def jsonListOr : JSON → List JSON
  | JSON.arr l => l
  | _ => []

/-- Python string extraction with `''` default (`d.get(field, '')`). -/
def strOrEmpty : Option JSON → String
  | some (JSON.str s) => s
  | _ => ""

/-- Python truthiness of a JSON value. -/
def truthy : JSON → Bool
  | JSON.null => false
  | JSON.bool b => b
  | JSON.num n => n != 0
  | JSON.str s => s != ""
  | JSON.arr l => !l.isEmpty
  | JSON.obj o => !o.isEmpty

/-- `util.is_scalar`: anything that is not a dict or a list. -/
def is_scalar : JSON → Bool
  | JSON.obj _ => false
  | JSON.arr _ => false
  | _ => true

mutual

/-- Per-value combination rule of `util.dmerge` for one shared key:
both dicts recurse, both lists concatenate, a non-scalar beats a scalar,
and on every other conflict the first (d1) value is kept. -/
def dvmerge : JSON → JSON → JSON
  | JSON.obj o1, JSON.obj o2 => JSON.obj (dmergeO o1 o2)
  | JSON.arr l1, JSON.arr l2 => JSON.arr (l1 ++ l2)
  | v1, v2 => if is_scalar v1 && !(is_scalar v2) then v2 else v1

/-- `util.dmerge` on the underlying dicts: merge the second dict into the
first, key by key; keys missing from the first are appended. -/
def dmergeO (result : PyDict) : PyDict → PyDict
  | [] => result
  | (key, value) :: rest =>
      dmergeO
        (match lookupA result key with
         | some v1 => setk result key (dvmerge v1 value)
         | none => result ++ [(key, value)])
        rest

end

/-- `util.dmerge` at the JSON level.  The source only ever applies it to a
dict pair; on other inputs `dvmerge` keeps the structured side, which is
unreachable at the modelled call sites. -/
def dmerge (d1 d2 : JSON) : JSON := dvmerge d1 d2

/-- `frassum.Server`: logical LSP server.  `sid` models CPython `id(s)`;
it is not part of the dataclass-generated equality. -/
structure Server where
  name : String
  caps : PyDict := []
  cookie : JSON := JSON.null
  sid : Int := 0
deriving Repr, DecidableEq

/-- Python `==` on `Server` dataclass instances: field equality over
`name`, `caps` and `cookie` (the generated `__eq__`), `sid` excluded. -/
def pyEqServer (a b : Server) : Bool :=
  a.name == b.name && decide (a.caps = b.caps) && decide (a.cookie = b.cookie)

/-- `frassum.PayloadItem`: one collected response payload. -/
structure PayloadItem where
  payload : JSON
  server : Server
  is_error : Bool
deriving Repr, DecidableEq

/-- `frassum.DocumentState` for one URI.  `timer` abstracts the pending
`asyncio` publish task as armed / not armed. -/
structure DocState where
  docver : Int
  inflight_pushes : List (Int × JSON) := []
  inflight_pulls : List Int := []
  timer : Bool := false
  dispatched : Bool := false
  stashed_items : List Int := []
deriving Repr, DecidableEq

/-- One stash slot: `(payload, original_data, server)` as stored by
`_stash_data`.  `original = JSON.null` models Python `None` (the item
had no `data` field, or a null one). -/
structure StashEntry where
  payload : PyDict
  original : JSON
  server : Server
deriving Repr, DecidableEq

/-- Result of `on_client_request`: either a list of servers to forward
to, or a `DirectResponse` payload sent straight back to the editor. -/
inductive RouteResult where
  | route : List Server → RouteResult
  | direct : JSON → RouteResult
deriving Repr, DecidableEq

/-- Python `str.endswith`, on the underlying character lists. -/
def pyEndsWith (s post : String) : Bool := post.data.isSuffixOf s.data

/-- The truthiness test `x == 1` of the source's `t1sync`, with Python's
`True == 1` coercion. -/
def pyEqOne : JSON → Bool
  | JSON.num n => n == 1
  | JSON.bool b => b
  | _ => false

/-- `t1sync` inside `_merge_initialize_payloads`: the back-end only
supports full-document sync (`1`, or an object with `change = 1`). -/
def t1sync (x : JSON) : Bool :=
  pyEqOne x ||
    (match x with
     | JSON.obj o =>
       match lookupA o "change" with
       | some c => pyEqOne c
       | none => false
     | _ => false)

/-- One iteration of the capability-merging loop of
`_merge_initialize_payloads` (frassum.py lines 418-444): merge the
reported value `newval` for capability `cap` into the accumulated
capability dict `res`. -/
def mergeCapStep (res : PyDict) (cap : String) (newval : JSON) : PyDict :=
  let cur := pyget res cap
  if cur = JSON.null then setk res cap newval
  else if cap = "textDocumentSync" ∧ t1sync newval = true then setk res cap newval
  else if is_scalar newval = true ∧ cur = JSON.null then setk res cap newval
  else if is_scalar cur = true ∧ is_scalar newval = false then setk res cap newval
  else
    match cur, newval with
    | JSON.obj o1, JSON.obj o2 =>
        if cap ≠ "semanticTokensProvider" then setk res cap (JSON.obj (dmergeO o1 o2))
        else res
    | _, _ => res

/-- The whole capability-merging loop: fold `mergeCapStep` over the new
payload's capability entries in order. -/
def mergeCaps (res new : PyDict) : PyDict :=
  new.foldl (fun r kv => mergeCapStep r kv.1 kv.2) res

/-- `merge_field` inside `_merge_initialize_payloads`: combine one
`serverInfo` string field, the primary's payload contributing first. -/
def mergeField (primaryPayload : Bool) (mergedInfo sInfo : PyDict)
    (fld sep : String) : String :=
  let cur := strOrEmpty (lookupA mergedInfo fld)
  let new := strOrEmpty (lookupA sInfo fld)
  if cur = "" ∨ new = "" then (if new ≠ "" then new else cur)
  else if primaryPayload then new ++ sep ++ cur
  else cur ++ sep ++ new

/-- `_merge_initialize_payloads`: merge one initialize response payload
into the running aggregate (capabilities, then `serverInfo`). -/
def mergeInitializePayloads (primary : Server) (aggregate : PyDict)
    (payload : PyDict) (source : Server) : PyDict :=
  let primaryPayload := pyEqServer source primary
  let res := asObj (pyget aggregate "capabilities")
  let new := asObj (pyget payload "capabilities")
  let agg1 := setk aggregate "capabilities" (JSON.obj (mergeCaps res new))
  let sInfo := asObj (pyget payload "serverInfo")
  if sInfo ≠ [] then
    let mergedInfo := asObj (pyget agg1 "serverInfo")
    setk agg1 "serverInfo" (JSON.obj
      [("name", JSON.str (mergeField primaryPayload mergedInfo sInfo "name" "+")),
       ("version", JSON.str (mergeField primaryPayload mergedInfo sInfo "version" ","))])
  else agg1

/-- Source attribution applied to one diagnostic: when the dict has no
`source` key, add `source = name` (Python appends the new key). -/
def attribSource (name : String) : JSON → JSON
  | JSON.obj o =>
      if (lookupA o "source").isSome then JSON.obj o
      else JSON.obj (o ++ [("source", JSON.str name)])
  | d => d

/-- `normalize` inside the completion branch of
`aggregate_response_payloads`: wrap a bare list as a CompletionList. -/
def normalizeCompletion (x : JSON) : JSON :=
  match x with
  | JSON.obj o => JSON.obj o
  | x => JSON.obj [("items", x)]

/-- `aggregate_response_payloads`: combine the collected response
payloads for one method into `(payload, is_error)`.  On an empty input
the source raises `IndexError`; that unreachable case is modelled as a
null error. -/
def aggregateResponsePayloads (primary : Server) (method : String)
    (items : List PayloadItem) : JSON × Bool :=
  match items with
  | [] => (JSON.null, true)
  | i0 :: rest =>
    if (i0 :: rest).all (fun i => i.is_error) then (i0.payload, true)
    else
      let good := (i0 :: rest).filter (fun i => !i.is_error)
      let res : JSON :=
        if method = "textDocument/diagnostic" then
          JSON.obj [("items", JSON.arr (good.foldl (fun acc it =>
                      acc ++ (pygetList (asObj it.payload) "items").map
                        (attribSource it.server.name)) [])),
                    ("kind", JSON.str "full")]
        else if method = "textDocument/codeAction" then
          JSON.arr (good.foldl (fun acc it => acc ++ jsonListOr it.payload) [])
        else if method = "textDocument/completion" then
          good.foldl (fun acc it => dmerge acc (normalizeCompletion it.payload))
            (JSON.obj [])
        else if method = "initialize" then
          JSON.obj (good.foldl (fun acc it =>
            mergeInitializePayloads primary acc (asObj it.payload) it.server) [])
        else if method = "shutdown" then JSON.obj []
        else good.foldl (fun acc it => dmerge acc it.payload) (JSON.obj [])
      (res, false)

/-- Set equality of id collections, Python
`(pushes.keys() | pulls.keys()) == servers.keys()`. -/
def sameSet (xs ys : List Int) : Bool :=
  xs.all (fun x => ys.contains x) && ys.all (fun y => xs.contains y)

/-- `_pushdiags_complete`: at least one push was recorded, and pushes
and in-flight pulls together cover every back-end. -/
def pushdiagsComplete (allIds : List Int) (st : DocState) : Bool :=
  !st.inflight_pushes.isEmpty &&
    sameSet (st.inflight_pushes.map Prod.fst ++ st.inflight_pulls) allIds

/-- `_publish_pushdiags`: mark dispatched, cancel the timer, and build
the aggregated `publishDiagnostics` params. -/
def publishPushdiags (uri : String) (st : DocState) : DocState × PyDict :=
  ({ st with dispatched := true, timer := false },
   [("uri", JSON.str uri),
    ("version", JSON.num st.docver),
    ("diagnostics", JSON.arr (st.inflight_pushes.foldl
      (fun acc kv => acc ++ jsonListOr kv.2) []))])

/-- The push-recording tail of `on_server_notification` (frassum.py
lines 252-277): record the push, then dispatch / re-publish / complete /
arm the timer.  Returns the new document state and the notifications
emitted to the editor. -/
def pushStep (dropTardy : Bool) (allIds : List Int) (uri : String)
    (state : DocState) (diags : List JSON) (sid : Int) :
    DocState × List (String × PyDict) :=
  let st1 := { state with inflight_pushes := setkA state.inflight_pushes sid (JSON.arr diags) }
  if st1.dispatched then
    if dropTardy then (st1, [])
    else
      let p := publishPushdiags uri st1
      (p.1, [("textDocument/publishDiagnostics", p.2)])
  else if pushdiagsComplete allIds st1 then
    let p := publishPushdiags uri st1
    (p.1, [("textDocument/publishDiagnostics", p.2)])
  else if st1.inflight_pushes.length = 1 then
    ({ st1 with timer := true }, [])
  else (st1, [])

/-- `on_server_notification`: aggregate `publishDiagnostics` when the
URI has tracked state, forward every other notification unchanged.
Returns the updated per-URI document states and the notifications
emitted to the editor (method, params). -/
def onServerNotification (dropTardy : Bool) (allIds : List Int)
    (docStates : List (String × DocState)) (method : String) (params : PyDict)
    (source : Server) : List (String × DocState) × List (String × PyDict) :=
  if method = "textDocument/publishDiagnostics" then
    match pyget params "uri" with
    | JSON.str uri =>
      if uri ≠ "" then
        match lookupA docStates uri with
        | some state =>
          let diags := (pygetList params "diagnostics").map (attribSource source.name)
          let v := pyget params "version"
          if truthy v = true ∧ v ≠ JSON.num state.docver then (docStates, [])
          else
            let r := pushStep dropTardy allIds uri state diags source.sid
            (setkA docStates uri r.1, r.2)
        | none => (docStates, [(method, params)])
      else (docStates, [(method, params)])
    | _ => (docStates, [(method, params)])
  else (docStates, [(method, params)])

/-- `_stash_data`: record `(payload, original_data, server)` under a
fresh handle `leanId` (CPython `id(payload)`), replace the item's `data`
field with the handle, and remember the handle in the document state.
The stashed payload reference sees the mutation, so the stored item
already carries the handle. -/
def stashData (stash : List (Int × StashEntry)) (leanId : Int)
    (payload : PyDict) (server : Server) (ds : DocState) :
    List (Int × StashEntry) × PyDict × DocState :=
  let original := pyget payload "data"
  let payload' := setk payload "data" (JSON.num leanId)
  (setkA stash leanId ⟨payload', original, server⟩,
   payload',
   { ds with stashed_items :=
       if ds.stashed_items.contains leanId then ds.stashed_items
       else ds.stashed_items ++ [leanId] })

/-- `self.stash.get(params.get('data'))`: only an integer `data` can hit
a stash slot (non-integer hashables miss; the unhashable-crash case is
out of the modelled state space). -/
def stashGet (stash : List (Int × StashEntry)) (d : JSON) : Option StashEntry :=
  match d with
  | JSON.num n => lookupA stash n
  | _ => none

/-- Membership filter of the completion branch:
`cp and k in cp.get("triggerCharacters", [])`. -/
def hasTrigger (s : Server) (k : JSON) : Bool :=
  let cp := pyget s.caps "completionProvider"
  truthy cp && (pygetList (asObj cp) "triggerCharacters").contains k

/-- The `rename`/`formatting`/`rangeFormatting` rule: first server (in
configured order) declaring the capability, else nobody. -/
def firstWithCap (servers : List Server) (cap : String) : List Server :=
  match servers.find? (fun s => truthy (pyget s.caps cap)) with
  | some s => [s]
  | none => []

/-- The `initialize` mutation: force
`capabilities.general.positionEncodings = ["utf-16"]` when a truthy
`general` sub-dict is present. -/
def forcePositionEncodings (params : PyDict) : PyDict :=
  match lookupA params "capabilities" with
  | some (JSON.obj caps) =>
    match lookupA caps "general" with
    | some (JSON.obj g) =>
      if truthy (JSON.obj g) then
        setk params "capabilities" (JSON.obj (setk caps "general"
          (JSON.obj (setk g "positionEncodings" (JSON.arr [JSON.str "utf-16"])))))
      else params
    | _ => params
  | _ => params

/-- `on_client_request`: decide who receives a client request.  Returns
the routing decision, the (possibly mutated) request params, the updated
document states, and an optional `publishDiagnostics` params emitted to
the editor (the pull-diagnostics branch can complete a push quorum). -/
def onClientRequest (allIds : List Int) (stash : List (Int × StashEntry))
    (docStates : List (String × DocState)) (method : String) (params : PyDict)
    (servers : List Server) :
    RouteResult × PyDict × List (String × DocState) × Option PyDict :=
  match (if pyEndsWith method "resolve" then stashGet stash (pyget params "data") else none) with
  | some e =>
      if e.original ≠ JSON.null then
        (RouteResult.route [e.server], setk params "data" e.original, docStates, none)
      else
        (RouteResult.direct (JSON.obj e.payload), params, docStates, none)
  | none =>
    if method = "initialize" ∨ method = "shutdown" then
      let params' := if method = "initialize" then forcePositionEncodings params else params
      (RouteResult.route servers, params', docStates, none)
    else if method = "textDocument/codeAction" then
      (RouteResult.route (servers.filter (fun s => truthy (pyget s.caps "codeActionProvider"))),
       params, docStates, none)
    else if method = "textDocument/completion" then
      let cands := servers.filter (fun s => truthy (pyget s.caps "completionProvider"))
      if cands.length ≤ 1 then (RouteResult.route cands, params, docStates, none)
      else
        let k := pyget (asObj (pyget params "context")) "triggerCharacter"
        if truthy k then
          (RouteResult.route (cands.filter (fun s => hasTrigger s k)), params, docStates, none)
        else (RouteResult.route cands, params, docStates, none)
    else if method = "textDocument/rename" then
      (RouteResult.route (firstWithCap servers "renameProvider"), params, docStates, none)
    else if method = "textDocument/formatting" then
      (RouteResult.route (firstWithCap servers "documentFormattingProvider"), params, docStates, none)
    else if method = "textDocument/rangeFormatting" then
      (RouteResult.route (firstWithCap servers "documentRangeFormattingProvider"), params, docStates, none)
    else if method = "textDocument/diagnostic" then
      let td := pyget params "textDocument"
      let targets := servers.filter (fun s => truthy (pyget s.caps "diagnosticProvider"))
      match truthy td, pyget (asObj td) "uri" with
      | true, JSON.str uri =>
        if uri ≠ "" then
          match lookupA docStates uri with
          | some state =>
            if targets ≠ [] then
              let newPulls := targets.foldl
                (fun p t => if p.contains t.sid then p else p ++ [t.sid])
                state.inflight_pulls
              let state1 := { state with inflight_pulls := newPulls }
              if pushdiagsComplete allIds state1 then
                let p := publishPushdiags uri state1
                (RouteResult.route targets, params, setkA docStates uri p.1, some p.2)
              else (RouteResult.route targets, params, setkA docStates uri state1, none)
            else (RouteResult.route [], params, docStates, none)
          | none => (RouteResult.route [], params, docStates, none)
        else (RouteResult.route [], params, docStates, none)
      | _, _ => (RouteResult.route [], params, docStates, none)
    else
      match servers with
      | [] => (RouteResult.route [], params, docStates, none)
      | s0 :: _ => (RouteResult.route [s0], params, docStates, none)

/-- Following the claim's wording (for comparison with the source's
routing): the back-ends declaring `completionProvider`, restricted —
whenever `context.triggerCharacter` is set — to those whose
`completionProvider.triggerCharacters` includes that character. -/
def specCompletionSelection (servers : List Server) (params : PyDict) : List Server :=
  let cands := servers.filter (fun s => truthy (pyget s.caps "completionProvider"))
  let k := pyget (asObj (pyget params "context")) "triggerCharacter"
  if truthy k then cands.filter (fun s => hasTrigger s k) else cands

/-- The `serverInfo.name` string carried by a collected initialize
payload (empty when absent or not a string). -/
def infoName (it : PayloadItem) : String :=
  strOrEmpty (lookupA (asObj (pyget (asObj it.payload) "serverInfo")) "name")

/-- The `serverInfo.version` string carried by a collected initialize
payload (empty when absent or not a string). -/
def infoVersion (it : PayloadItem) : String :=
  strOrEmpty (lookupA (asObj (pyget (asObj it.payload) "serverInfo")) "version")

/-- Left-fold concatenation with a separator: `x`, then each element of
`xs` appended after one more separator. -/
def sepJoin (sep x : String) (xs : List String) : String :=
  xs.foldl (fun c n => c ++ sep ++ n) x

end Rass

namespace Rass

/-! ### Association-list lemmas -/

theorem lookupA_setkA_self {κ α : Type} [DecidableEq κ] (l : List (κ × α)) (k : κ) (v : α) :
    lookupA (setkA l k v) k = some v := by
  induction l with
  | nil => simp [setkA, lookupA]
  | cons hd tl ih =>
    obtain ⟨k', v'⟩ := hd
    by_cases h : k' = k
    · simp [setkA, lookupA, h]
    · simp [setkA, lookupA, h, ih]

theorem lookupA_setkA_ne {κ α : Type} [DecidableEq κ] (l : List (κ × α)) (k k' : κ) (v : α)
    (h : k' ≠ k) : lookupA (setkA l k v) k' = lookupA l k' := by
  induction l with
  | nil =>
    have hne : ¬k = k' := fun hc => h hc.symm
    simp [setkA, lookupA, hne]
  | cons hd tl ih =>
    obtain ⟨k0, v0⟩ := hd
    by_cases h0 : k0 = k
    · subst h0
      have hne : ¬k0 = k' := fun hc => h hc.symm
      simp [setkA, lookupA, hne]
    · simp only [setkA, if_neg h0, lookupA]
      by_cases h1 : k0 = k'
      · simp [h1]
      · simp [h1, ih]

theorem pyget_setk_self (d : PyDict) (k : String) (v : JSON) :
    pyget (setk d k v) k = v := by
  simp [pyget, setk, lookupA_setkA_self]

theorem pyget_setk_ne (d : PyDict) (k k' : String) (v : JSON) (h : k' ≠ k) :
    pyget (setk d k v) k' = pyget d k' := by
  simp [pyget, setk, lookupA_setkA_ne _ _ _ _ h]

end Rass

namespace Rass

/-! ### C1: initialize capability merging -/

/-- Claim C1 counterexample.  The claim's exception 1 states that whenever
any back-end reports `textDocumentSync` as `1` (or an object with
`change = 1`) the merged value takes that degraded form.  Here the
primary reports the degraded scalar `1` and a second back-end then
reports the structured non-degraded `{change: 2}`; the structured-over-
scalar rule overwrites the degraded scalar, so the merged
`textDocumentSync` is `{change: 2}`, which is not degraded
(`t1sync` is false on it). -/
theorem C1_claim_counterexample :
    aggregateResponsePayloads { name := "A", sid := 1 } "initialize"
      [{ payload := JSON.obj [("capabilities", JSON.obj [("textDocumentSync", JSON.num 1)])],
         server := { name := "A", sid := 1 }, is_error := false },
       { payload := JSON.obj [("capabilities", JSON.obj [("textDocumentSync", JSON.obj [("change", JSON.num 2)])])],
         server := { name := "B", sid := 2 }, is_error := false }]
      = (JSON.obj [("capabilities", JSON.obj [("textDocumentSync", JSON.obj [("change", JSON.num 2)])])], false)
    ∧ t1sync (JSON.obj [("change", JSON.num 2)]) = false
    ∧ t1sync (JSON.num 1) = true := by
  refine ⟨by rfl, by rfl, by rfl⟩

/-- Claim C1, amended.  One step of the capability-merging loop of
`_merge_initialize_payloads` satisfies: (1) for keys other than
`textDocumentSync`, a scalar never overwrites a recorded object;
(2) a structured (object) value replaces a recorded scalar; (3) when the
recorded and new values are both objects and the key is neither
`semanticTokensProvider` nor a degraded `textDocumentSync` report, they
are merged recursively with `dmerge`; (4) a degraded `textDocumentSync`
report (`1` or `{change: 1}`) always overwrites the recorded value at
that step (but, per the counterexample, a degraded *scalar* may later be
replaced by a structured value through rule (2), so the final merged
value need not stay degraded); (5) once `semanticTokensProvider` holds a
recorded object value, it is never changed (in particular never
deep-merged). -/
theorem C1_capability_merge_amended (res : PyDict) (cap : String) (newval : JSON) :
    (∀ o, cap ≠ "textDocumentSync" → pyget res cap = JSON.obj o → is_scalar newval = true →
        mergeCapStep res cap newval = res)
  ∧ (∀ o2, is_scalar (pyget res cap) = true → newval = JSON.obj o2 →
        lookupA (mergeCapStep res cap newval) cap = some newval)
  ∧ (∀ o1 o2, pyget res cap = JSON.obj o1 → newval = JSON.obj o2 →
        cap ≠ "semanticTokensProvider" → ¬(cap = "textDocumentSync" ∧ t1sync newval = true) →
        lookupA (mergeCapStep res cap newval) cap = some (dmerge (JSON.obj o1) (JSON.obj o2)))
  ∧ (cap = "textDocumentSync" → t1sync newval = true →
        lookupA (mergeCapStep res cap newval) cap = some newval)
  ∧ (∀ o, cap = "semanticTokensProvider" → pyget res cap = JSON.obj o →
        mergeCapStep res cap newval = res) := by
  refine ⟨?_, ?_, ?_, ?_, ?_⟩
  · intro o hcap hcur hsc
    unfold mergeCapStep
    rw [hcur]
    rw [if_neg (by simp), if_neg (fun hc => hcap hc.1),
      if_neg (by simp), if_neg (by simp [is_scalar])]
    cases newval <;> simp_all [is_scalar]
  · intro o2 hsc hnew
    subst hnew
    unfold mergeCapStep
    by_cases hnull : pyget res cap = JSON.null
    · rw [if_pos hnull]
      exact lookupA_setkA_self res cap _
    · rw [if_neg hnull]
      by_cases htds : cap = "textDocumentSync" ∧ t1sync (JSON.obj o2) = true
      · rw [if_pos htds]
        exact lookupA_setkA_self res cap _
      · rw [if_neg htds, if_neg (by simp [hnull, is_scalar]),
          if_pos ⟨hsc, by simp [is_scalar]⟩]
        exact lookupA_setkA_self res cap _
  · intro o1 o2 hcur hnew hstp htds
    subst hnew
    unfold mergeCapStep
    rw [hcur]
    rw [if_neg (by simp), if_neg htds, if_neg (by simp), if_neg (by simp [is_scalar])]
    simp only [ne_eq, hstp, not_false_iff, if_true]
    rw [show dmerge (JSON.obj o1) (JSON.obj o2) = JSON.obj (dmergeO o1 o2) from rfl]
    exact lookupA_setkA_self res cap _
  · intro hcap ht1
    unfold mergeCapStep
    by_cases hnull : pyget res cap = JSON.null
    · rw [if_pos hnull]
      exact lookupA_setkA_self res cap _
    · rw [if_neg hnull, if_pos ⟨hcap, ht1⟩]
      exact lookupA_setkA_self res cap _
  · intro o hcap hcur
    subst hcap
    unfold mergeCapStep
    rw [hcur]
    rw [if_neg (by simp), if_neg (by simp), if_neg (by simp), if_neg (by simp [is_scalar])]
    cases newval <;> simp [is_scalar]

/-- Claim C1 witness.  Rule (1) of the amended claim at a concrete input:
a recorded object value for `hoverProvider` survives a later scalar
report. -/
theorem C1_capability_merge_amended_witness :
    mergeCapStep [("hoverProvider", JSON.obj [("workDoneProgress", JSON.bool true)])]
      "hoverProvider" (JSON.bool true)
      = [("hoverProvider", JSON.obj [("workDoneProgress", JSON.bool true)])] :=
  (C1_capability_merge_amended
      [("hoverProvider", JSON.obj [("workDoneProgress", JSON.bool true)])]
      "hoverProvider" (JSON.bool true)).1
    [("workDoneProgress", JSON.bool true)] (by decide) (by rfl) (by rfl)

end Rass

namespace Rass

/-! ### Shared facts about `on_server_notification` -/

/-- Whatever branch `pushStep` takes, the push is recorded: the new
state's `inflight_pushes` maps the source id to the attributed
diagnostics. -/
theorem pushStep_inflight_pushes (dropTardy : Bool) (allIds : List Int) (uri : String)
    (state : DocState) (diags : List JSON) (sid : Int) :
    (pushStep dropTardy allIds uri state diags sid).1.inflight_pushes
      = setkA state.inflight_pushes sid (JSON.arr diags) := by
  simp only [pushStep, publishPushdiags]
  split_ifs <;> rfl

/-- When the URI is tracked and the version check passes, the
notification reduces to `pushStep` on the attributed diagnostics. -/
theorem onServerNotification_record (dropTardy : Bool) (allIds : List Int)
    (docStates : List (String × DocState)) (uri : String) (state : DocState)
    (params : PyDict) (source : Server)
    (h1 : pyget params "uri" = JSON.str uri) (h2 : uri ≠ "")
    (h3 : lookupA docStates uri = some state)
    (h4 : ¬(truthy (pyget params "version") = true ∧
            pyget params "version" ≠ JSON.num state.docver)) :
    onServerNotification dropTardy allIds docStates
        "textDocument/publishDiagnostics" params source
      = (setkA docStates uri
           (pushStep dropTardy allIds uri state
             ((pygetList params "diagnostics").map (attribSource source.name))
             source.sid).1,
         (pushStep dropTardy allIds uri state
             ((pygetList params "diagnostics").map (attribSource source.name))
             source.sid).2) := by
  simp only [onServerNotification, h1, h3, ne_eq, if_pos rfl]
  simp only [h2, not_false_iff, if_true, ite_true, if_pos]
  rw [if_neg h4]

/-- When the URI is tracked and the version is truthy and differs from
the tracked one, the notification is dropped entirely. -/
theorem onServerNotification_drop (dropTardy : Bool) (allIds : List Int)
    (docStates : List (String × DocState)) (uri : String) (state : DocState)
    (params : PyDict) (source : Server)
    (h1 : pyget params "uri" = JSON.str uri) (h2 : uri ≠ "")
    (h3 : lookupA docStates uri = some state)
    (h4 : truthy (pyget params "version") = true)
    (h5 : pyget params "version" ≠ JSON.num state.docver) :
    onServerNotification dropTardy allIds docStates
        "textDocument/publishDiagnostics" params source
      = (docStates, []) := by
  simp only [onServerNotification, h1, h3, ne_eq, if_pos rfl]
  simp only [h2, not_false_iff, if_true, ite_true, if_pos]
  rw [if_pos ⟨h4, h5⟩]

end Rass

namespace Rass

/-! ### C2: stale-version suppression of diagnostic pushes -/

/-- Claim C2 counterexample.  The claim states that any push whose version
differs from the tracked version is dropped, "in particular whenever
`v < version`".  The source only drops when the version is *truthy*:
a push carrying version `0` against tracked version `1` (`0 < 1`,
`0 ≠ 1`) is recorded in `inflight_pushes` and even published, because
`params.get('version')` evaluates falsy. -/
theorem C2_claim_counterexample :
    onServerNotification false [1] [("file:///t", ⟨1, [], [], false, false, []⟩)]
      "textDocument/publishDiagnostics"
      [("uri", JSON.str "file:///t"), ("version", JSON.num 0),
       ("diagnostics", JSON.arr [JSON.obj [("message", JSON.str "m")]])]
      { name := "A", sid := 1 }
    = ([("file:///t",
         ⟨1, [(1, JSON.arr [JSON.obj [("message", JSON.str "m"), ("source", JSON.str "A")]])],
          [], false, true, []⟩)],
       [("textDocument/publishDiagnostics",
         [("uri", JSON.str "file:///t"), ("version", JSON.num 1),
          ("diagnostics", JSON.arr [JSON.obj [("message", JSON.str "m"), ("source", JSON.str "A")]])])])
    ∧ (0 : Int) ≠ 1 := ⟨by rfl, by decide⟩

/-- Claim C2, amended.  For a push carrying a *truthy* version `v`: if a
`DocumentState` exists for the URI and `v` differs from its tracked
version, the notification is dropped entirely — the document state is
unchanged (in particular nothing is recorded in `inflight_pushes`) and
nothing is emitted, so no aggregated publication can contain its
diagnostics.  A push carrying the tracked version is recorded normally:
the tracked state's `inflight_pushes` afterwards maps the source to its
attributed diagnostics. -/
theorem C2_stale_version_drop (dropTardy : Bool) (allIds : List Int)
    (docStates : List (String × DocState)) (uri : String) (state : DocState)
    (params : PyDict) (source : Server)
    (h1 : pyget params "uri" = JSON.str uri) (h2 : uri ≠ "")
    (h3 : lookupA docStates uri = some state) :
    (truthy (pyget params "version") = true →
     pyget params "version" ≠ JSON.num state.docver →
      onServerNotification dropTardy allIds docStates
        "textDocument/publishDiagnostics" params source = (docStates, []))
  ∧ (pyget params "version" = JSON.num state.docver →
      ∃ st', lookupA (onServerNotification dropTardy allIds docStates
                "textDocument/publishDiagnostics" params source).1 uri = some st'
        ∧ st'.inflight_pushes = setkA state.inflight_pushes source.sid
            (JSON.arr ((pygetList params "diagnostics").map (attribSource source.name)))) := by
  constructor
  · intro h4 h5
    exact onServerNotification_drop dropTardy allIds docStates uri state params source h1 h2 h3 h4 h5
  · intro hv
    rw [onServerNotification_record dropTardy allIds docStates uri state params source h1 h2 h3
      (by rw [hv]; simp)]
    refine ⟨_, lookupA_setkA_self docStates uri _, ?_⟩
    exact pushStep_inflight_pushes dropTardy allIds uri state _ source.sid

/-- Claim C2 witness.  The drop half of the amended claim at a concrete
input: tracked version `1`, push version `5`, nothing recorded or
emitted. -/
theorem C2_stale_version_drop_witness :
    onServerNotification false [1] [("u", ⟨1, [], [], false, false, []⟩)]
      "textDocument/publishDiagnostics"
      [("uri", JSON.str "u"), ("version", JSON.num 5), ("diagnostics", JSON.arr [])]
      { name := "A", sid := 1 }
    = ([("u", ⟨1, [], [], false, false, []⟩)], []) :=
  (C2_stale_version_drop false [1] [("u", ⟨1, [], [], false, false, []⟩)] "u"
      ⟨1, [], [], false, false, []⟩
      [("uri", JSON.str "u"), ("version", JSON.num 5), ("diagnostics", JSON.arr [])]
      { name := "A", sid := 1 } (by rfl) (by decide) (by rfl)).1 (by rfl) (by decide)

end Rass

namespace Rass

/-! ### C3: stash round-trip -/

/-- Claim C3 counterexample.  The claim quantifies over *every* stashed
item.  An item with no `data` field is stashed too (its `data` is
replaced in place by the fresh handle `7`), but a `*/resolve`
presenting that handle dispatches *zero* requests: the multiplexer
answers directly with the stashed payload instead of routing to the
owning back-end `B`. -/
theorem C3_claim_counterexample :
    (stashData [] 7 [("title", JSON.str "a")] ⟨"B", [], JSON.null, 2⟩
        ⟨1, [], [], false, false, []⟩).2.1
      = [("title", JSON.str "a"), ("data", JSON.num 7)]
    ∧ onClientRequest [1, 2]
        (stashData [] 7 [("title", JSON.str "a")] ⟨"B", [], JSON.null, 2⟩
          ⟨1, [], [], false, false, []⟩).1
        [] "codeAction/resolve" [("data", JSON.num 7)]
        [⟨"A", [], JSON.null, 1⟩, ⟨"B", [], JSON.null, 2⟩]
      = (RouteResult.direct (JSON.obj [("title", JSON.str "a"), ("data", JSON.num 7)]),
         [("data", JSON.num 7)], [], none) := ⟨by rfl, by rfl⟩

/-- Claim C3, amended.  For every item whose original `data` field is
present and non-null: stashing replaces its `data` in place by the fresh
handle, and a subsequent `*/resolve` presenting that handle is routed to
exactly the one owning back-end (no aggregation, no direct response),
with the request's `data` restored to the item's original value. -/
theorem C3_stash_roundtrip (stash : List (Int × StashEntry)) (leanId : Int)
    (payload : PyDict) (server : Server) (ds : DocState) (allIds : List Int)
    (docStates : List (String × DocState)) (method : String) (params : PyDict)
    (servers : List Server)
    (hd : pyget payload "data" ≠ JSON.null)
    (hm : pyEndsWith method "resolve" = true)
    (hp : pyget params "data" = JSON.num leanId) :
    pyget (stashData stash leanId payload server ds).2.1 "data" = JSON.num leanId
  ∧ onClientRequest allIds (stashData stash leanId payload server ds).1
      docStates method params servers
      = (RouteResult.route [server], setk params "data" (pyget payload "data"),
         docStates, none) := by
  constructor
  · exact pyget_setk_self payload "data" (JSON.num leanId)
  · show onClientRequest allIds
        (setkA stash leanId ⟨setk payload "data" (JSON.num leanId), pyget payload "data", server⟩)
        docStates method params servers = _
    unfold onClientRequest
    rw [hm, if_pos rfl, hp]
    show (match stashGet (setkA stash leanId
        ⟨setk payload "data" (JSON.num leanId), pyget payload "data", server⟩)
        (JSON.num leanId) with
      | some e => if e.original ≠ JSON.null then
          (RouteResult.route [e.server], setk params "data" e.original, docStates, none)
        else (RouteResult.direct (JSON.obj e.payload), params, docStates, none)
      | none => _) = _
    rw [show stashGet (setkA stash leanId
        ⟨setk payload "data" (JSON.num leanId), pyget payload "data", server⟩)
        (JSON.num leanId)
      = some ⟨setk payload "data" (JSON.num leanId), pyget payload "data", server⟩
      from lookupA_setkA_self stash leanId _]
    simp only [ne_eq, hd, not_false_iff, if_true]

/-- Claim C3 witness.  The round trip at a concrete input: an item with
`data = {ax: 1}` stashed under handle `5` for back-end `B`; the resolve
is routed only to `B` with the original `data` restored. -/
theorem C3_stash_roundtrip_witness :
    onClientRequest [1, 2]
      (stashData [] 5 [("title", JSON.str "x"), ("data", JSON.obj [("ax", JSON.num 1)])]
        ⟨"B", [], JSON.null, 2⟩ ⟨1, [], [], false, false, []⟩).1
      [] "codeAction/resolve" [("data", JSON.num 5)]
      [⟨"A", [], JSON.null, 1⟩, ⟨"B", [], JSON.null, 2⟩]
    = (RouteResult.route [⟨"B", [], JSON.null, 2⟩],
       [("data", JSON.obj [("ax", JSON.num 1)])], [], none) :=
  (C3_stash_roundtrip [] 5 [("title", JSON.str "x"), ("data", JSON.obj [("ax", JSON.num 1)])]
      ⟨"B", [], JSON.null, 2⟩ ⟨1, [], [], false, false, []⟩ [1, 2] []
      "codeAction/resolve" [("data", JSON.num 5)]
      [⟨"A", [], JSON.null, 1⟩, ⟨"B", [], JSON.null, 2⟩]
      (by decide) (by rfl) (by rfl)).2

end Rass

namespace Rass

/-! ### C4: resolve with a non-live stash handle -/

/-- Claim C4 counterexample.  The claim states that a `*/resolve` whose
`data` is not a live stash handle is answered directly with a benign
fallback and not forwarded.  With an empty stash, a `codeAction/resolve`
carrying the dead handle `42` falls through the routing policy and is
*forwarded to the primary back-end* — the result is a routing decision,
not a direct response. -/
theorem C4_claim_counterexample :
    stashGet [] (JSON.num 42) = none
    ∧ onClientRequest [1, 2] [] [] "codeAction/resolve" [("data", JSON.num 42)]
        [⟨"A", [], JSON.null, 1⟩, ⟨"B", [], JSON.null, 2⟩]
      = (RouteResult.route [⟨"A", [], JSON.null, 1⟩], [("data", JSON.num 42)], [], none) :=
  ⟨by rfl, by rfl⟩

/-- Claim C4, amended.  The direct benign fallback happens exactly for a
*live* stash handle whose stashed original `data` is null/absent: the
multiplexer then answers with the stashed enclosing item and forwards
nothing.  A `*/resolve` whose `data` misses the stash entirely falls
through the method table and is routed to the primary back-end. -/
theorem C4_stale_handle_fallback (stash : List (Int × StashEntry)) (allIds : List Int)
    (docStates : List (String × DocState)) (method : String) (params : PyDict)
    (s0 : Server) (rest : List Server)
    (hm : pyEndsWith method "resolve" = true) :
    (∀ e, stashGet stash (pyget params "data") = some e → e.original = JSON.null →
      onClientRequest allIds stash docStates method params (s0 :: rest)
        = (RouteResult.direct (JSON.obj e.payload), params, docStates, none))
  ∧ (stashGet stash (pyget params "data") = none →
      onClientRequest allIds stash docStates method params (s0 :: rest)
        = (RouteResult.route [s0], params, docStates, none)) := by
  have hne : ∀ s : String, pyEndsWith s "resolve" = false → method ≠ s := by
    intro s hs hc
    rw [hc, hs] at hm
    exact Bool.false_ne_true hm
  constructor
  · intro e he horig
    unfold onClientRequest
    rw [hm, if_pos rfl, he]
    simp only [horig, ne_eq, not_true_eq_false, if_false, ite_false, reduceIte]
  · intro hmiss
    unfold onClientRequest
    rw [hm, if_pos rfl, hmiss]
    rw [if_neg (by
      rintro (hc | hc)
      · exact hne "initialize" (by decide) hc
      · exact hne "shutdown" (by decide) hc)]
    rw [if_neg (hne "textDocument/codeAction" (by decide))]
    rw [if_neg (hne "textDocument/completion" (by decide))]
    rw [if_neg (hne "textDocument/rename" (by decide))]
    rw [if_neg (hne "textDocument/formatting" (by decide))]
    rw [if_neg (hne "textDocument/rangeFormatting" (by decide))]
    rw [if_neg (hne "textDocument/diagnostic" (by decide))]

/-- Claim C4 witness.  The live-handle-with-null-data half at a concrete
input: handle `9` is live but stashed with no original data; the
multiplexer answers directly with the stashed item. -/
theorem C4_stale_handle_fallback_witness :
    onClientRequest [1, 2]
      [(9, ⟨[("title", JSON.str "b"), ("data", JSON.num 9)], JSON.null, ⟨"B", [], JSON.null, 2⟩⟩)]
      [] "completionItem/resolve" [("data", JSON.num 9)]
      (⟨"A", [], JSON.null, 1⟩ :: [⟨"B", [], JSON.null, 2⟩])
    = (RouteResult.direct (JSON.obj [("title", JSON.str "b"), ("data", JSON.num 9)]),
       [("data", JSON.num 9)], [], none) :=
  (C4_stale_handle_fallback
      [(9, ⟨[("title", JSON.str "b"), ("data", JSON.num 9)], JSON.null, ⟨"B", [], JSON.null, 2⟩⟩)]
      [1, 2] [] "completionItem/resolve" [("data", JSON.num 9)]
      ⟨"A", [], JSON.null, 1⟩ [⟨"B", [], JSON.null, 2⟩] (by rfl)).1
    ⟨[("title", JSON.str "b"), ("data", JSON.num 9)], JSON.null, ⟨"B", [], JSON.null, 2⟩⟩
    (by rfl) (by rfl)

end Rass

namespace Rass

/-! ### C5: error handling in response aggregation -/

/-- Claim C5.  For every non-empty collected payload list: if every item
is an error, the aggregate is the first item's payload marked as an
error; otherwise the aggregate is marked as success and equals the
aggregation of the non-error items alone — every errored item is
dropped from the combination. -/
theorem C5_error_aggregation (primary : Server) (method : String)
    (i0 : PayloadItem) (rest : List PayloadItem) :
    ((i0 :: rest).all (fun i => i.is_error) = true →
      aggregateResponsePayloads primary method (i0 :: rest) = (i0.payload, true))
  ∧ ((i0 :: rest).all (fun i => i.is_error) = false →
      aggregateResponsePayloads primary method (i0 :: rest)
        = aggregateResponsePayloads primary method
            ((i0 :: rest).filter (fun i => !i.is_error))
      ∧ (aggregateResponsePayloads primary method (i0 :: rest)).2 = false) := by
  constructor
  · intro hall
    simp only [aggregateResponsePayloads]
    rw [if_pos hall]
  · intro hall
    obtain ⟨x, hxmem, hxe⟩ := List.all_eq_false.mp hall
    have hxe' : x.is_error = false := by
      revert hxe; cases x.is_error <;> simp
    have hxf : x ∈ (i0 :: rest).filter (fun i => !i.is_error) :=
      List.mem_filter.mpr ⟨hxmem, by simp [hxe']⟩
    have hfne : (i0 :: rest).filter (fun i => !i.is_error) ≠ [] := by
      intro h
      rw [h] at hxf
      exact absurd hxf (List.not_mem_nil x)
    obtain ⟨e0, fs, hcons⟩ := List.exists_cons_of_ne_nil hfne
    have hfilter_all : ∀ a ∈ (i0 :: rest).filter (fun i => !i.is_error),
        a.is_error = false := by
      intro a ha
      have h2 := (List.mem_filter.mp ha).2
      revert h2; cases a.is_error <;> simp
    have hfall : (e0 :: fs).all (fun i => i.is_error) = false := by
      have he0 : e0.is_error = false := hfilter_all e0 (hcons ▸ List.mem_cons_self e0 fs)
      simp [List.all_cons, he0]
    have hff : (e0 :: fs).filter (fun i => !i.is_error) = e0 :: fs :=
      List.filter_eq_self.mpr (by
        intro a ha
        simp [hfilter_all a (hcons ▸ ha)])
    have key : aggregateResponsePayloads primary method (i0 :: rest)
        = aggregateResponsePayloads primary method (e0 :: fs) := by
      simp only [aggregateResponsePayloads]
      rw [if_neg (by rw [hall]; exact Bool.false_ne_true)]
      conv_rhs => rw [if_neg (by rw [hfall]; exact Bool.false_ne_true)]
      rw [hcons, hff]
    refine ⟨by rw [hcons]; exact key, ?_⟩
    rw [key]
    simp only [aggregateResponsePayloads]
    rw [if_neg (by rw [hfall]; exact Bool.false_ne_true)]

/-- Claim C5 witness.  Both halves at concrete inputs: two errored items
yield the first error; one error among successes is dropped and the
aggregation of the remaining success is returned as a success. -/
theorem C5_error_aggregation_witness :
    aggregateResponsePayloads ⟨"A", [], JSON.null, 1⟩ "textDocument/codeAction"
      [⟨JSON.obj [("code", JSON.num 1)], ⟨"A", [], JSON.null, 1⟩, true⟩,
       ⟨JSON.obj [("code", JSON.num 2)], ⟨"B", [], JSON.null, 2⟩, true⟩]
      = (JSON.obj [("code", JSON.num 1)], true)
    ∧ aggregateResponsePayloads ⟨"A", [], JSON.null, 1⟩ "textDocument/codeAction"
        [⟨JSON.obj [("code", JSON.num 1)], ⟨"A", [], JSON.null, 1⟩, true⟩,
         ⟨JSON.arr [JSON.obj [("title", JSON.str "t")]], ⟨"B", [], JSON.null, 2⟩, false⟩]
      = aggregateResponsePayloads ⟨"A", [], JSON.null, 1⟩ "textDocument/codeAction"
          [⟨JSON.arr [JSON.obj [("title", JSON.str "t")]], ⟨"B", [], JSON.null, 2⟩, false⟩] :=
  ⟨(C5_error_aggregation ⟨"A", [], JSON.null, 1⟩ "textDocument/codeAction"
      ⟨JSON.obj [("code", JSON.num 1)], ⟨"A", [], JSON.null, 1⟩, true⟩
      [⟨JSON.obj [("code", JSON.num 2)], ⟨"B", [], JSON.null, 2⟩, true⟩]).1 (by rfl),
   ((C5_error_aggregation ⟨"A", [], JSON.null, 1⟩ "textDocument/codeAction"
      ⟨JSON.obj [("code", JSON.num 1)], ⟨"A", [], JSON.null, 1⟩, true⟩
      [⟨JSON.arr [JSON.obj [("title", JSON.str "t")]], ⟨"B", [], JSON.null, 2⟩, false⟩]).2
      (by rfl)).1⟩

end Rass

namespace Rass

/-! ### C6: push/pull quorum and publish-timer arming -/

/-- Claim C6.  Recording a push while nothing has been dispatched yet:
(1) if the union of recorded pushes and in-flight pulls covers all
back-ends, the aggregated `publishDiagnostics` is emitted immediately
(and the state marked dispatched, timer cancelled); (2) otherwise
nothing is emitted, the publish timer is armed exactly on the first
recorded push, and an already-armed timer is untouched by later pushes;
(3) the completeness check counts a back-end registered as an in-flight
pull as having answered: pushes together with pulls covering every
back-end id suffices, as long as at least one push was recorded. -/
theorem C6_push_quorum (dropTardy : Bool) (allIds : List Int) (uri : String)
    (state : DocState) (diags : List JSON) (sid : Int)
    (h5 : state.dispatched = false) :
    (pushdiagsComplete allIds
        { state with inflight_pushes := setkA state.inflight_pushes sid (JSON.arr diags) } = true →
      pushStep dropTardy allIds uri state diags sid
        = ({ state with inflight_pushes := setkA state.inflight_pushes sid (JSON.arr diags), dispatched := true, timer := false },
           [("textDocument/publishDiagnostics",
             (publishPushdiags uri
               { state with inflight_pushes := setkA state.inflight_pushes sid (JSON.arr diags) }).2)]))
  ∧ (pushdiagsComplete allIds
        { state with inflight_pushes := setkA state.inflight_pushes sid (JSON.arr diags) } = false →
      (pushStep dropTardy allIds uri state diags sid).2 = []
      ∧ (state.inflight_pushes = [] →
          (pushStep dropTardy allIds uri state diags sid).1.timer = true)
      ∧ (state.timer = true →
          (pushStep dropTardy allIds uri state diags sid).1.timer = state.timer))
  ∧ (state.inflight_pushes ≠ [] →
      (∀ i : Int, i ∈ allIds ↔
        i ∈ state.inflight_pushes.map Prod.fst ++ state.inflight_pulls) →
      pushdiagsComplete allIds state = true) := by
  refine ⟨?_, ?_, ?_⟩
  · intro hc
    unfold pushStep
    rw [if_neg (by show ¬state.dispatched = true; rw [h5]; exact Bool.false_ne_true),
      if_pos hc]
    rfl
  · intro hc
    unfold pushStep
    rw [if_neg (by show ¬state.dispatched = true; rw [h5]; exact Bool.false_ne_true),
      if_neg (by rw [hc]; exact Bool.false_ne_true)]
    refine ⟨?_, ?_, ?_⟩
    · split
      · rfl
      · rfl
    · intro hemp
      split
      · rfl
      · next hlen =>
        exfalso
        apply hlen
        show (setkA state.inflight_pushes sid (JSON.arr diags)).length = 1
        rw [hemp]
        rfl
    · intro htimer
      split
      · show true = state.timer
        rw [htimer]
      · rfl
  · intro hne hcov
    unfold pushdiagsComplete sameSet
    have h1 : state.inflight_pushes.isEmpty = false := by
      cases hp : state.inflight_pushes with
      | nil => exact absurd hp hne
      | cons a l => rfl
    rw [h1]
    have h2 : (state.inflight_pushes.map Prod.fst ++ state.inflight_pulls).all
        (fun x => allIds.contains x) = true := by
      rw [List.all_eq_true]
      intro x hx
      exact List.elem_eq_true_of_mem ((hcov x).mpr hx)
    have h3 : allIds.all
        (fun y => (state.inflight_pushes.map Prod.fst ++ state.inflight_pulls).contains y) = true := by
      rw [List.all_eq_true]
      intro y hy
      exact List.elem_eq_true_of_mem ((hcov y).mp hy)
    rw [h2, h3]
    rfl

/-- Claim C6 witness.  Immediate publication at a concrete input: two
back-ends, back-end 2 registered as an in-flight pull, and the push from
back-end 1 completes the quorum and publishes at once. -/
theorem C6_push_quorum_witness :
    pushStep false [1, 2] "u" ⟨3, [], [2], true, false, []⟩
      [JSON.obj [("message", JSON.str "m")]] 1
    = (⟨3, [(1, JSON.arr [JSON.obj [("message", JSON.str "m")]])], [2], false, true, []⟩,
       [("textDocument/publishDiagnostics",
         [("uri", JSON.str "u"), ("version", JSON.num 3),
          ("diagnostics", JSON.arr [JSON.obj [("message", JSON.str "m")]])])]) :=
  (C6_push_quorum false [1, 2] "u" ⟨3, [], [2], true, false, []⟩
      [JSON.obj [("message", JSON.str "m")]] 1 (by rfl)).1 (by rfl)

end Rass

namespace Rass

/-! ### C7: tardy pushes under --drop-tardy and under the default -/

/-- Claim C7.  Once `dispatched` is set for a document version, a later
push for it: under `--drop-tardy`, is recorded but triggers no
`publishDiagnostics` emission at all, and `dispatched` stays set (so
every subsequent push is likewise silenced); under the default policy,
it instead triggers an immediate re-publication of the enhanced
aggregation (the recorded pushes including the tardy one).  Stated both
for the push-recording step and for the notification handler as a
whole. -/
theorem C7_tardy_policy (allIds : List Int) (uri : String) (state : DocState)
    (diags : List JSON) (sid : Int)
    (docStates : List (String × DocState)) (params : PyDict) (source : Server)
    (hd : state.dispatched = true) :
    ((pushStep true allIds uri state diags sid).2 = []
      ∧ (pushStep true allIds uri state diags sid).1.dispatched = true)
  ∧ (pushStep false allIds uri state diags sid).2
      = [("textDocument/publishDiagnostics",
          (publishPushdiags uri
            { state with inflight_pushes := setkA state.inflight_pushes sid (JSON.arr diags) }).2)]
  ∧ (pyget params "uri" = JSON.str uri → uri ≠ "" →
      lookupA docStates uri = some state →
      ¬(truthy (pyget params "version") = true ∧
        pyget params "version" ≠ JSON.num state.docver) →
      (onServerNotification true allIds docStates
        "textDocument/publishDiagnostics" params source).2 = []) := by
  refine ⟨⟨?_, ?_⟩, ?_, ?_⟩
  · simp [pushStep, hd]
  · simp [pushStep, hd]
  · simp [pushStep, hd]
  · intro h1 h2 h3 h4
    rw [onServerNotification_record true allIds docStates uri state params source h1 h2 h3 h4]
    simp [pushStep, hd]

/-- Claim C7 witness.  At a concrete dispatched state: under
`--drop-tardy` a tardy push emits nothing; under the default it
re-publishes the enhanced aggregation containing both servers'
diagnostics. -/
theorem C7_tardy_policy_witness :
    (pushStep true [1, 2] "u"
        ⟨1, [(1, JSON.arr [JSON.obj [("message", JSON.str "a")]])], [], false, true, []⟩
        [JSON.obj [("message", JSON.str "b")]] 2).2 = []
    ∧ (pushStep false [1, 2] "u"
        ⟨1, [(1, JSON.arr [JSON.obj [("message", JSON.str "a")]])], [], false, true, []⟩
        [JSON.obj [("message", JSON.str "b")]] 2).2
      = [("textDocument/publishDiagnostics",
          [("uri", JSON.str "u"), ("version", JSON.num 1),
           ("diagnostics", JSON.arr [JSON.obj [("message", JSON.str "a")],
                                     JSON.obj [("message", JSON.str "b")]])])] :=
  ⟨(C7_tardy_policy [1, 2] "u"
      ⟨1, [(1, JSON.arr [JSON.obj [("message", JSON.str "a")]])], [], false, true, []⟩
      [JSON.obj [("message", JSON.str "b")]] 2 [] [] ⟨"A", [], JSON.null, 1⟩ (by rfl)).1.1,
   (C7_tardy_policy [1, 2] "u"
      ⟨1, [(1, JSON.arr [JSON.obj [("message", JSON.str "a")]])], [], false, true, []⟩
      [JSON.obj [("message", JSON.str "b")]] 2 [] [] ⟨"A", [], JSON.null, 1⟩ (by rfl)).2.1⟩

end Rass

namespace Rass

/-! ### C8: completion routing -/

/-- Claim C8 counterexample.  With exactly one candidate the source skips
the trigger-character filter (`len(cands) <= 1` short-circuit): a lone
back-end whose `triggerCharacters` is `["."]` still receives a
completion triggered by `":"`, although the claim's restriction selects
nobody. -/
theorem C8_claim_counterexample :
    (onClientRequest [1] [] [] "textDocument/completion"
        [("context", JSON.obj [("triggerCharacter", JSON.str ":")])]
        [⟨"S", [("completionProvider", JSON.obj [("triggerCharacters", JSON.arr [JSON.str "."])])], JSON.null, 1⟩]).1
      = RouteResult.route
          [⟨"S", [("completionProvider", JSON.obj [("triggerCharacters", JSON.arr [JSON.str "."])])], JSON.null, 1⟩]
    ∧ specCompletionSelection
        [⟨"S", [("completionProvider", JSON.obj [("triggerCharacters", JSON.arr [JSON.str "."])])], JSON.null, 1⟩]
        [("context", JSON.obj [("triggerCharacter", JSON.str ":")])]
      = [] := ⟨by rfl, by rfl⟩

/-- Claim C8, amended.  The completion routing selects the back-ends
declaring `completionProvider`; when *more than one* back-end qualifies,
the claimed trigger-character restriction is applied exactly as stated;
with at most one candidate the filter is skipped and the candidate list
is returned as is. -/
theorem C8_completion_routing (allIds : List Int) (stash : List (Int × StashEntry))
    (docStates : List (String × DocState)) (params : PyDict) (servers : List Server) :
    ((servers.filter (fun s => truthy (pyget s.caps "completionProvider"))).length ≤ 1 →
      onClientRequest allIds stash docStates "textDocument/completion" params servers
        = (RouteResult.route (servers.filter (fun s => truthy (pyget s.caps "completionProvider"))),
           params, docStates, none))
  ∧ (1 < (servers.filter (fun s => truthy (pyget s.caps "completionProvider"))).length →
      onClientRequest allIds stash docStates "textDocument/completion" params servers
        = (RouteResult.route (specCompletionSelection servers params),
           params, docStates, none)) := by
  have hres : pyEndsWith "textDocument/completion" "resolve" = false := by decide
  constructor
  · intro hlen
    simp only [onClientRequest, hres, Bool.false_eq_true, if_false]
    rw [if_pos hlen]
    rfl
  · intro hlen
    simp only [onClientRequest, hres, Bool.false_eq_true, if_false]
    rw [if_neg (not_le.mpr hlen)]
    by_cases hk : truthy (pyget (asObj (pyget params "context")) "triggerCharacter") = true
    · rw [if_pos hk]
      simp [specCompletionSelection, hk]
    · rw [if_neg hk]
      simp [specCompletionSelection, hk]

/-- Claim C8 witness.  Two candidates and trigger character `"."`: only
the back-end listing `"."` in `triggerCharacters` is selected. -/
theorem C8_completion_routing_witness :
    onClientRequest [1, 2] [] [] "textDocument/completion"
      [("context", JSON.obj [("triggerCharacter", JSON.str ".")])]
      [⟨"S1", [("completionProvider", JSON.obj [("triggerCharacters", JSON.arr [JSON.str "."])])], JSON.null, 1⟩,
       ⟨"S2", [("completionProvider", JSON.obj [("triggerCharacters", JSON.arr [JSON.str ":"])])], JSON.null, 2⟩]
    = (RouteResult.route
        [⟨"S1", [("completionProvider", JSON.obj [("triggerCharacters", JSON.arr [JSON.str "."])])], JSON.null, 1⟩],
       [("context", JSON.obj [("triggerCharacter", JSON.str ".")])], [], none) :=
  (C8_completion_routing [1, 2] [] []
      [("context", JSON.obj [("triggerCharacter", JSON.str ".")])]
      [⟨"S1", [("completionProvider", JSON.obj [("triggerCharacters", JSON.arr [JSON.str "."])])], JSON.null, 1⟩,
       ⟨"S2", [("completionProvider", JSON.obj [("triggerCharacters", JSON.arr [JSON.str ":"])])], JSON.null, 2⟩]).2
    (by decide)

end Rass

namespace Rass

/-! ### C10: no publication without at least one recorded push -/

/-- With no recorded push the completeness check is false, whatever the
pulls cover. -/
theorem pushdiagsComplete_of_empty (allIds : List Int) (st : DocState)
    (h : st.inflight_pushes = []) : pushdiagsComplete allIds st = false := by
  simp [pushdiagsComplete, h]

/-- Claim C10.  The reconciler never emits an aggregated
`publishDiagnostics` while `inflight_pushes` is empty: the completeness
check returns false whenever no push has been recorded, so routing a
`textDocument/diagnostic` request — which registers in-flight pulls for
every target back-end — can never by itself trigger a publication, even
when the push/pull union then covers all back-ends. -/
theorem C10_no_publication_without_push (allIds : List Int)
    (stash : List (Int × StashEntry)) (docStates : List (String × DocState))
    (params : PyDict) (servers : List Server) :
    (∀ st : DocState, st.inflight_pushes = [] → pushdiagsComplete allIds st = false)
  ∧ ((∀ uri state, lookupA docStates uri = some state → state.inflight_pushes = []) →
      (onClientRequest allIds stash docStates "textDocument/diagnostic" params servers).2.2.2
        = none) := by
  constructor
  · intro st h
    exact pushdiagsComplete_of_empty allIds st h
  · intro hemp
    have hres : pyEndsWith "textDocument/diagnostic" "resolve" = false := by decide
    simp only [onClientRequest, hres, Bool.false_eq_true, if_false]
    rw [if_neg (by decide :
        ¬("textDocument/diagnostic" = "initialize" ∨ "textDocument/diagnostic" = "shutdown"))]
    rw [if_neg (by decide : ¬"textDocument/diagnostic" = "textDocument/codeAction")]
    rw [if_neg (by decide : ¬"textDocument/diagnostic" = "textDocument/completion")]
    rw [if_neg (by decide : ¬"textDocument/diagnostic" = "textDocument/rename")]
    rw [if_neg (by decide : ¬"textDocument/diagnostic" = "textDocument/formatting")]
    rw [if_neg (by decide : ¬"textDocument/diagnostic" = "textDocument/rangeFormatting")]
    rw [if_pos trivial]
    split
    · rename_i b j uri htd hjuri
      by_cases hu : uri = ""
      · rw [if_neg (by simp [hu])]
      · rw [if_pos hu]
        split
        · rename_i state heq
          by_cases ht : servers.filter (fun s => truthy (pyget s.caps "diagnosticProvider")) = []
          · rw [if_neg (by simp [ht])]
          · rw [if_pos ht]
            have hfalse : pushdiagsComplete allIds { docver := state.docver, inflight_pushes := state.inflight_pushes, inflight_pulls := List.foldl (fun p t => if p.contains t.sid = true then p else p ++ [t.sid]) state.inflight_pulls (List.filter (fun s => truthy (pyget s.caps "diagnosticProvider")) servers), timer := state.timer, dispatched := state.dispatched, stashed_items := state.stashed_items } = false :=
              pushdiagsComplete_of_empty allIds _ (hemp uri state heq)
            rw [if_neg (by rw [hfalse]; exact Bool.false_ne_true)]
        · rfl
    · rfl

/-- Claim C10 witness.  Pulls registered for every back-end but no push
recorded: the completeness check is false. -/
theorem C10_no_publication_without_push_witness :
    pushdiagsComplete [1, 2] ⟨3, [], [1, 2], false, false, []⟩ = false :=
  (C10_no_publication_without_push [1, 2] [] [] [] []).1
    ⟨3, [], [1, 2], false, false, []⟩ (by rfl)

end Rass

namespace Rass

/-! ### C9: serverInfo merging -/

theorem str_append_ne_empty (a b : String) (h : a ≠ "") : a ++ b ≠ "" := by
  intro hc
  apply h
  have hd := congrArg String.data hc
  rw [String.data_append] at hd
  rw [List.append_eq_nil] at hd
  cases a
  simp_all

theorem sepJoin_ne_empty (sep x : String) (xs : List String) (h : x ≠ "") :
    sepJoin sep x xs ≠ "" := by
  induction xs generalizing x with
  | nil => exact h
  | cons n ns ih =>
    show sepJoin sep (x ++ sep ++ n) ns ≠ ""
    exact ih (x ++ sep ++ n) (str_append_ne_empty _ _ (str_append_ne_empty _ _ h))

theorem sepJoin_prepend (sep p x : String) (xs : List String) :
    p ++ sepJoin sep x xs = sepJoin sep (p ++ x) xs := by
  induction xs generalizing x with
  | nil => rfl
  | cons n ns ih =>
    show p ++ sepJoin sep (x ++ sep ++ n) ns = sepJoin sep (p ++ x ++ sep ++ n) ns
    rw [ih (x ++ sep ++ n)]
    rw [← String.append_assoc p (x ++ sep) n, ← String.append_assoc p x sep]

theorem sepJoin_append (sep x : String) (l1 l2 : List String) :
    sepJoin sep x (l1 ++ l2) = sepJoin sep (sepJoin sep x l1) l2 := by
  simp [sepJoin, List.foldl_append]

theorem sepJoin_cons_append (sep x n : String) (l1 l2 : List String) :
    sepJoin sep x (n :: (l1 ++ l2)) = sepJoin sep (sepJoin sep (x ++ sep ++ n) l1) l2 := by
  show sepJoin sep (x ++ sep ++ n) (l1 ++ l2) = _
  exact sepJoin_append sep (x ++ sep ++ n) l1 l2

theorem strOrEmpty_eq_of_ne_empty (o : Option JSON) (h : strOrEmpty o ≠ "") :
    o = some (JSON.str (strOrEmpty o)) := by
  match o with
  | none => exact absurd rfl h
  | some JSON.null => exact absurd rfl h
  | some (JSON.bool b) => exact absurd rfl h
  | some (JSON.num n) => exact absurd rfl h
  | some (JSON.str s) => rfl
  | some (JSON.arr l) => exact absurd rfl h
  | some (JSON.obj ob) => exact absurd rfl h

end Rass

namespace Rass

/-- One `_merge_initialize_payloads` step, tracked on the `serverInfo`
key: starting from no merged `serverInfo` the payload's own name and
version are installed; starting from merged strings `(N, V)` the
payload's strings are prepended when the payload is the primary's and
appended otherwise, with separators `+` and `,`. -/
theorem mergeInit_serverInfo_step (primary : Server) (agg : PyDict) (payload : PyDict)
    (source : Server) (n v : String)
    (hn : n ≠ "") (hv : v ≠ "")
    (hname : lookupA (asObj (pyget payload "serverInfo")) "name" = some (JSON.str n))
    (hver : lookupA (asObj (pyget payload "serverInfo")) "version" = some (JSON.str v)) :
    (pyget agg "serverInfo" = JSON.null →
      pyget (mergeInitializePayloads primary agg payload source) "serverInfo"
        = JSON.obj [("name", JSON.str n), ("version", JSON.str v)])
  ∧ (∀ N V : String, N ≠ "" → V ≠ "" →
      pyget agg "serverInfo" = JSON.obj [("name", JSON.str N), ("version", JSON.str V)] →
      pyget (mergeInitializePayloads primary agg payload source) "serverInfo"
        = (if pyEqServer source primary then
             JSON.obj [("name", JSON.str (n ++ "+" ++ N)), ("version", JSON.str (v ++ "," ++ V))]
           else
             JSON.obj [("name", JSON.str (N ++ "+" ++ n)), ("version", JSON.str (V ++ "," ++ v))])) := by
  have hsne : asObj (pyget payload "serverInfo") ≠ [] := by
    intro hc
    rw [hc] at hname
    exact absurd hname (by simp [lookupA])
  constructor
  · intro habs
    simp only [mergeInitializePayloads]
    rw [if_pos hsne]
    rw [pyget_setk_self]
    have hm : asObj (pyget (setk agg "capabilities"
        (JSON.obj (mergeCaps (asObj (pyget agg "capabilities"))
          (asObj (pyget payload "capabilities"))))) "serverInfo") = [] := by
      rw [pyget_setk_ne _ _ _ _ (by decide), habs]
      rfl
    rw [hm]
    simp [mergeField, hname, hver, strOrEmpty, hn, hv, lookupA]
  · intro N V hN hV hpres
    simp only [mergeInitializePayloads]
    rw [if_pos hsne]
    rw [pyget_setk_self]
    have hm : asObj (pyget (setk agg "capabilities"
        (JSON.obj (mergeCaps (asObj (pyget agg "capabilities"))
          (asObj (pyget payload "capabilities"))))) "serverInfo")
        = [("name", JSON.str N), ("version", JSON.str V)] := by
      rw [pyget_setk_ne _ _ _ _ (by decide), hpres]
      rfl
    rw [hm]
    by_cases hp : pyEqServer source primary = true
    · rw [if_pos hp]
      simp [mergeField, hname, hver, strOrEmpty, hn, hv, hN, hV, lookupA, hp]
    · rw [if_neg hp]
      simp only [Bool.not_eq_true] at hp
      simp [mergeField, hname, hver, strOrEmpty, hn, hv, hN, hV, lookupA, hp]

end Rass

namespace Rass

/-- Folding `_merge_initialize_payloads` over non-primary payloads with
well-formed `serverInfo` appends their names (and versions) in arrival
order after the already-merged strings. -/
theorem foldInfo_nonprimary (primary : Server) (its : List PayloadItem) (agg : PyDict)
    (N V : String) (hN : N ≠ "") (hV : V ≠ "")
    (hwf : ∀ it ∈ its, infoName it ≠ "" ∧ infoVersion it ≠ "")
    (hnp : ∀ it ∈ its, pyEqServer it.server primary = false)
    (hagg : pyget agg "serverInfo" = JSON.obj [("name", JSON.str N), ("version", JSON.str V)]) :
    pyget (its.foldl (fun acc it =>
        mergeInitializePayloads primary acc (asObj it.payload) it.server) agg) "serverInfo"
      = JSON.obj [("name", JSON.str (sepJoin "+" N (its.map infoName))),
                  ("version", JSON.str (sepJoin "," V (its.map infoVersion)))] := by
  induction its generalizing agg N V with
  | nil => simpa [sepJoin] using hagg
  | cons it its ih =>
    obtain ⟨hn1, hv1⟩ := hwf it (List.mem_cons_self it its)
    have hname : lookupA (asObj (pyget (asObj it.payload) "serverInfo")) "name"
        = some (JSON.str (infoName it)) := strOrEmpty_eq_of_ne_empty _ hn1
    have hver : lookupA (asObj (pyget (asObj it.payload) "serverInfo")) "version"
        = some (JSON.str (infoVersion it)) := strOrEmpty_eq_of_ne_empty _ hv1
    have hstep := (mergeInit_serverInfo_step primary agg (asObj it.payload) it.server
        (infoName it) (infoVersion it) hn1 hv1 hname hver).2 N V hN hV hagg
    rw [hnp it (List.mem_cons_self it its)] at hstep
    simp only [Bool.false_eq_true, if_false] at hstep
    rw [List.foldl_cons]
    rw [ih (mergeInitializePayloads primary agg (asObj it.payload) it.server)
      (N ++ "+" ++ infoName it) (V ++ "," ++ infoVersion it)
      (str_append_ne_empty _ _ (str_append_ne_empty _ _ hN))
      (str_append_ne_empty _ _ (str_append_ne_empty _ _ hV))
      (fun a ha => hwf a (List.mem_cons_of_mem _ ha))
      (fun a ha => hnp a (List.mem_cons_of_mem _ ha))
      hstep]
    rfl

/-- For a non-empty all-success item list, the initialize aggregation is
the left fold of `_merge_initialize_payloads` over the items, marked as
a success. -/
theorem aggregate_initialize_eq_fold (primary : Server) (items : List PayloadItem)
    (hne : items ≠ []) (hsucc : ∀ it ∈ items, it.is_error = false) :
    aggregateResponsePayloads primary "initialize" items
      = (JSON.obj (items.foldl (fun acc it =>
          mergeInitializePayloads primary acc (asObj it.payload) it.server) []), false) := by
  match items, hne with
  | i0 :: rest, _ =>
    have hall : (i0 :: rest).all (fun i => i.is_error) = false := by
      simp [List.all_cons, hsucc i0 (List.mem_cons_self _ _)]
    have hfilter : (i0 :: rest).filter (fun i => !i.is_error) = i0 :: rest :=
      List.filter_eq_self.mpr (by intro a ha; simp [hsucc a ha])
    simp only [aggregateResponsePayloads]
    rw [if_neg (by rw [hall]; exact Bool.false_ne_true), hfilter]
    rfl

end Rass

namespace Rass

/-- Claim C9.  For initialize responses all carrying `serverInfo` with
non-empty name and version strings, exactly one of which is the
primary's (`pit`, arriving after `pre` and before `post`), the
aggregated `serverInfo.name` is the names joined with `+` and
`serverInfo.version` the versions joined with `,`, the primary's value
first regardless of its position in the arrival order (the remaining
values follow in arrival order). -/
theorem C9_serverinfo_merge (primary : Server) (pre post : List PayloadItem)
    (pit : PayloadItem)
    (hprim : pyEqServer pit.server primary = true)
    (hpre : ∀ it ∈ pre, pyEqServer it.server primary = false)
    (hpost : ∀ it ∈ post, pyEqServer it.server primary = false)
    (hwf : ∀ it ∈ pre ++ pit :: post, infoName it ≠ "" ∧ infoVersion it ≠ "")
    (herr : ∀ it ∈ pre ++ pit :: post, it.is_error = false) :
    pyget (asObj (aggregateResponsePayloads primary "initialize" (pre ++ pit :: post)).1)
        "serverInfo"
      = JSON.obj [("name", JSON.str (sepJoin "+" (infoName pit) ((pre ++ post).map infoName))),
                  ("version", JSON.str (sepJoin "," (infoVersion pit) ((pre ++ post).map infoVersion)))]
    ∧ (aggregateResponsePayloads primary "initialize" (pre ++ pit :: post)).2 = false := by
  have hne : pre ++ pit :: post ≠ [] := by simp
  rw [aggregate_initialize_eq_fold primary _ hne herr]
  refine ⟨?_, rfl⟩
  show pyget ((pre ++ pit :: post).foldl
      (fun acc it => mergeInitializePayloads primary acc (asObj it.payload) it.server) [])
      "serverInfo" = _
  rw [List.foldl_append, List.foldl_cons]
  obtain ⟨hnp, hvp⟩ := hwf pit (by simp)
  have hnamep : lookupA (asObj (pyget (asObj pit.payload) "serverInfo")) "name"
      = some (JSON.str (infoName pit)) := strOrEmpty_eq_of_ne_empty _ hnp
  have hverp : lookupA (asObj (pyget (asObj pit.payload) "serverInfo")) "version"
      = some (JSON.str (infoVersion pit)) := strOrEmpty_eq_of_ne_empty _ hvp
  cases pre with
  | nil =>
    simp only [List.foldl_nil]
    have hstep := (mergeInit_serverInfo_step primary [] (asObj pit.payload) pit.server
        (infoName pit) (infoVersion pit) hnp hvp hnamep hverp).1 (by rfl)
    rw [foldInfo_nonprimary primary post _ (infoName pit) (infoVersion pit) hnp hvp
      (fun a ha => hwf a (by simp [ha])) hpost hstep]
    simp
  | cons p1 ps =>
    obtain ⟨hn1, hv1⟩ := hwf p1 (by simp)
    have hname1 : lookupA (asObj (pyget (asObj p1.payload) "serverInfo")) "name"
        = some (JSON.str (infoName p1)) := strOrEmpty_eq_of_ne_empty _ hn1
    have hver1 : lookupA (asObj (pyget (asObj p1.payload) "serverInfo")) "version"
        = some (JSON.str (infoVersion p1)) := strOrEmpty_eq_of_ne_empty _ hv1
    rw [List.foldl_cons]
    have hstep1 := (mergeInit_serverInfo_step primary [] (asObj p1.payload) p1.server
        (infoName p1) (infoVersion p1) hn1 hv1 hname1 hver1).1 (by rfl)
    have hfoldps := foldInfo_nonprimary primary ps
      (mergeInitializePayloads primary [] (asObj p1.payload) p1.server)
      (infoName p1) (infoVersion p1) hn1 hv1
      (fun a ha => hwf a (by simp [ha]))
      (fun a ha => hpre a (by simp [ha]))
      hstep1
    have hstepP := (mergeInit_serverInfo_step primary
        (ps.foldl (fun acc it => mergeInitializePayloads primary acc (asObj it.payload) it.server)
          (mergeInitializePayloads primary [] (asObj p1.payload) p1.server))
        (asObj pit.payload) pit.server (infoName pit) (infoVersion pit) hnp hvp hnamep hverp).2
      (sepJoin "+" (infoName p1) (ps.map infoName))
      (sepJoin "," (infoVersion p1) (ps.map infoVersion))
      (sepJoin_ne_empty _ _ _ hn1) (sepJoin_ne_empty _ _ _ hv1) hfoldps
    rw [hprim] at hstepP
    simp only [if_true, if_pos] at hstepP
    rw [foldInfo_nonprimary primary post _
      (infoName pit ++ "+" ++ sepJoin "+" (infoName p1) (ps.map infoName))
      (infoVersion pit ++ "," ++ sepJoin "," (infoVersion p1) (ps.map infoVersion))
      (str_append_ne_empty _ _ (str_append_ne_empty _ _ hnp))
      (str_append_ne_empty _ _ (str_append_ne_empty _ _ hvp))
      (fun a ha => hwf a (by simp [ha]))
      hpost hstepP]
    rw [sepJoin_prepend, sepJoin_prepend]
    simp only [List.map_cons, List.map_append, List.cons_append]
    rw [sepJoin_cons_append, sepJoin_cons_append]

/-- Claim C9 witness.  Two back-ends where the primary (name `A`) answers
second: the merged `serverInfo` is `A+B` / `1,2`. -/
theorem C9_serverinfo_merge_witness :
    pyget (asObj (aggregateResponsePayloads ⟨"A", [], JSON.null, 1⟩ "initialize"
      [⟨JSON.obj [("serverInfo", JSON.obj [("name", JSON.str "B"), ("version", JSON.str "2")])], ⟨"B", [], JSON.null, 2⟩, false⟩,
       ⟨JSON.obj [("serverInfo", JSON.obj [("name", JSON.str "A"), ("version", JSON.str "1")])], ⟨"A", [], JSON.null, 1⟩, false⟩]).1)
      "serverInfo"
    = JSON.obj [("name", JSON.str "A+B"), ("version", JSON.str "1,2")] :=
  (C9_serverinfo_merge ⟨"A", [], JSON.null, 1⟩
    [⟨JSON.obj [("serverInfo", JSON.obj [("name", JSON.str "B"), ("version", JSON.str "2")])], ⟨"B", [], JSON.null, 2⟩, false⟩]
    [] ⟨JSON.obj [("serverInfo", JSON.obj [("name", JSON.str "A"), ("version", JSON.str "1")])], ⟨"A", [], JSON.null, 1⟩, false⟩
    (by rfl)
    (by intro it h; cases h with
        | head => rfl
        | tail _ h2 => cases h2)
    (by intro it h; cases h)
    (by intro it h
        cases h with
        | head => exact ⟨by decide, by decide⟩
        | tail _ h2 => cases h2 with
          | head => exact ⟨by decide, by decide⟩
          | tail _ h3 => cases h3)
    (by intro it h
        cases h with
        | head => rfl
        | tail _ h2 => cases h2 with
          | head => rfl
          | tail _ h3 => cases h3)).1

end Rass
